import Mathlib

/-!
Shallow embedding of the `realtime_dj` subsystem of the backend-py
repository: the session store (Django models in `realtime_dj/models.py`),
the REST mutators (`realtime_dj/views.py`, `realtime_dj/serializers.py`)
and the WebSocket consumer (`realtime_dj/consumers.py`).

Conventions of the embedding:
* timestamps are `Nat` (opaque instants; `timezone.now()` is passed in as
  a `now` parameter);
* Django `FloatField`s are rationals `ℚ` (the claims never exercise
  IEEE-specific behaviour; `max` on floats agrees with `max` on `ℚ` for
  the values involved);
* primary keys are `Nat`;
* the framework-managed audit columns `created_at` / `updated_at`
  (auto_now) are not modelled;
* a Django queryset is a `List` scanned in order; `objects.get(id=...)`
  is first-match lookup;
* JSON documents carried on the WebSocket wire are modelled by the
  inductive `Json` below, with numbers restricted to integers (the only
  place the consumer interprets a number is the listener count).
-/

namespace RealtimeDJ

/-- A parsed JSON document as produced by `json.loads`.  An `obj` models a
Python dict, so its key list is duplicate-free; numeric leaves are
modelled as integers (see the module comment). -/
inductive Json where
  | null : Json
  | bool (b : Bool) : Json
  | num (z : Int) : Json
  | str (s : String) : Json
  | arr (elems : List Json) : Json
  | obj (fields : List (String × Json)) : Json
  deriving Repr

mutual

/-- Decidable equality on JSON documents (the nested inductive defeats
the derive handler, so it is spelled out). -/
def Json.decEq : (a b : Json) → Decidable (a = b)
  | .null, .null => isTrue rfl
  | .bool a, .bool b =>
      if h : a = b then isTrue (by rw [h]) else isFalse (by simp [h])
  | .num a, .num b =>
      if h : a = b then isTrue (by rw [h]) else isFalse (by simp [h])
  | .str a, .str b =>
      if h : a = b then isTrue (by rw [h]) else isFalse (by simp [h])
  | .arr as, .arr bs =>
      match Json.decEqList as bs with
      | isTrue h => isTrue (by rw [h])
      | isFalse h => isFalse (by simp [h])
  | .obj fs, .obj gs =>
      match Json.decEqPairs fs gs with
      | isTrue h => isTrue (by rw [h])
      | isFalse h => isFalse (by simp [h])
  | .null, .bool _ => isFalse (by simp)
  | .null, .num _ => isFalse (by simp)
  | .null, .str _ => isFalse (by simp)
  | .null, .arr _ => isFalse (by simp)
  | .null, .obj _ => isFalse (by simp)
  | .bool _, .null => isFalse (by simp)
  | .bool _, .num _ => isFalse (by simp)
  | .bool _, .str _ => isFalse (by simp)
  | .bool _, .arr _ => isFalse (by simp)
  | .bool _, .obj _ => isFalse (by simp)
  | .num _, .null => isFalse (by simp)
  | .num _, .bool _ => isFalse (by simp)
  | .num _, .str _ => isFalse (by simp)
  | .num _, .arr _ => isFalse (by simp)
  | .num _, .obj _ => isFalse (by simp)
  | .str _, .null => isFalse (by simp)
  | .str _, .bool _ => isFalse (by simp)
  | .str _, .num _ => isFalse (by simp)
  | .str _, .arr _ => isFalse (by simp)
  | .str _, .obj _ => isFalse (by simp)
  | .arr _, .null => isFalse (by simp)
  | .arr _, .bool _ => isFalse (by simp)
  | .arr _, .num _ => isFalse (by simp)
  | .arr _, .str _ => isFalse (by simp)
  | .arr _, .obj _ => isFalse (by simp)
  | .obj _, .null => isFalse (by simp)
  | .obj _, .bool _ => isFalse (by simp)
  | .obj _, .num _ => isFalse (by simp)
  | .obj _, .str _ => isFalse (by simp)
  | .obj _, .arr _ => isFalse (by simp)

/-- Decidable equality on lists of JSON documents. -/
def Json.decEqList : (as bs : List Json) → Decidable (as = bs)
  | [], [] => isTrue rfl
  | [], _ :: _ => isFalse (by simp)
  | _ :: _, [] => isFalse (by simp)
  | a :: as, b :: bs =>
      match Json.decEq a b, Json.decEqList as bs with
      | isTrue h1, isTrue h2 => isTrue (by rw [h1, h2])
      | isFalse h1, _ => isFalse (by simp [h1])
      | _, isFalse h2 => isFalse (by simp [h2])

/-- Decidable equality on JSON object field lists. -/
def Json.decEqPairs : (fs gs : List (String × Json)) → Decidable (fs = gs)
  | [], [] => isTrue rfl
  | [], _ :: _ => isFalse (by simp)
  | _ :: _, [] => isFalse (by simp)
  | (k, v) :: fs, (l, w) :: gs =>
      match String.decEq k l, Json.decEq v w, Json.decEqPairs fs gs with
      | isTrue h1, isTrue h2, isTrue h3 => isTrue (by rw [h1, h2, h3])
      | isFalse h1, _, _ => isFalse (by simp [h1])
      | _, isFalse h2, _ => isFalse (by simp [h2])
      | _, _, isFalse h3 => isFalse (by simp [h3])

end

instance : DecidableEq Json := Json.decEq

/-- Python `d[k]` on a parsed document: `some v` when the document is a
dict containing key `k`; `none` models the raised `KeyError`/`TypeError`
(key absent, or the document is not a dict). -/
def Json.index : Json → String → Option Json
  | .obj fields, k => fields.lookup k
  | _, _ => none

/-- Python `d.get(k, default)` on a dict document. -/
def Json.getD (j : Json) (k : String) (default : Json) : Json :=
  match j.index k with
  | some v => v
  | none => default

/-- `realtime_dj.models.DJSession` (audit columns omitted). -/
structure DJSession where
  id : Nat
  dj : Nat
  station : Option Nat
  session_name : String
  description : String
  started_at : Nat
  ended_at : Option Nat
  is_live : Bool
  is_recording : Bool
  sample_rate : Nat
  bit_depth : Nat
  channels : Nat
  current_listeners : Nat
  peak_listeners : Nat
  master_level_left : ℚ
  master_level_right : ℚ
  channel_a_level : ℚ
  channel_b_level : ℚ
  crossfader_position : ℚ
  master_volume : ℚ
  deriving Repr, DecidableEq

/-- `DJSession.is_active`: a session is active iff `ended_at is None`. -/
def DJSession.is_active (s : DJSession) : Bool :=
  s.ended_at = none

/-- `realtime_dj.models.DJTrackInstance` (audit columns omitted).
Cue-point / hot-cue JSON mappings are association lists with
duplicate-free keys, matching a Python dict. -/
structure DJTrackInstance where
  id : Nat
  session : Nat
  track : Option Nat
  track_title : String
  track_artist : String
  track_duration : Option ℚ
  deck : String
  started_at : Nat
  ended_at : Option Nat
  current_position : ℚ
  playback_speed : ℚ
  is_playing : Bool
  is_looping : Bool
  volume : ℚ
  eq_low : ℚ
  eq_mid : ℚ
  eq_high : ℚ
  detected_bpm : Option ℚ
  manual_bpm : Option ℚ
  is_synced : Bool
  cue_points : List (String × ℚ)
  hot_cues : List (String × ℚ)
  deriving Repr, DecidableEq

/-- `realtime_dj.models.AudioLevelSnapshot`. The optional
`frequency_data` JSON payload is carried opaquely. -/
structure AudioLevelSnapshot where
  id : Nat
  session : Nat
  timestamp : Nat
  master_left : ℚ
  master_right : ℚ
  master_peak_left : ℚ
  master_peak_right : ℚ
  channel_a_left : ℚ
  channel_a_right : ℚ
  channel_b_left : ℚ
  channel_b_right : ℚ
  channel_a_peak : ℚ
  channel_b_peak : ℚ
  frequency_data : Option Json
  deriving Repr, DecidableEq

/-- `realtime_dj.models.LiveStreamMetrics`. -/
structure LiveStreamMetrics where
  id : Nat
  session : Nat
  timestamp : Nat
  current_listeners : Nat
  unique_listeners : Nat
  bitrate : Nat
  dropped_frames : Nat
  buffer_health : ℚ
  bandwidth_usage : Nat
  latency : Option ℚ
  listener_locations : Option Json
  deriving Repr, DecidableEq

/-- `realtime_dj.models.DJMixerState` (audit columns omitted). -/
structure DJMixerState where
  id : Nat
  session : Nat
  crossfader : ℚ
  master_volume : ℚ
  channel_a_volume : ℚ
  channel_a_eq_low : ℚ
  channel_a_eq_mid : ℚ
  channel_a_eq_high : ℚ
  channel_a_filter : ℚ
  channel_b_volume : ℚ
  channel_b_eq_low : ℚ
  channel_b_eq_mid : ℚ
  channel_b_eq_high : ℚ
  channel_b_filter : ℚ
  bpm_master : Option ℚ
  sync_enabled : Bool
  effects_active : List (String × Json)
  deriving Repr, DecidableEq

/-- The durable session store: one table per model, rows in insertion
order. -/
structure Store where
  sessions : List DJSession
  track_instances : List DJTrackInstance
  audio_snapshots : List AudioLevelSnapshot
  mixer_states : List DJMixerState
  stream_metrics : List LiveStreamMetrics
  deriving Repr, DecidableEq

/-- `DJSession.objects.get(id=sid)`: first row with the given id, `none`
when `DoesNotExist` would be raised. -/
def findSession (st : Store) (sid : Nat) : Option DJSession :=
  st.sessions.find? (fun s => s.id = sid)

/-- `DJTrackInstance.objects.get(id=tid)`. -/
def findTrack (st : Store) (tid : Nat) : Option DJTrackInstance :=
  st.track_instances.find? (fun t => t.id = tid)

/-- `session.save()`: write the (mutated) row back over the row with the
same primary key. -/
def saveSession (st : Store) (s : DJSession) : Store :=
  { st with sessions := st.sessions.map (fun r => if r.id = s.id then s else r) }

/-- `track_instance.save()`. -/
def saveTrack (st : Store) (t : DJTrackInstance) : Store :=
  { st with track_instances :=
      st.track_instances.map (fun r => if r.id = t.id then t else r) }

/-- Error outcomes of the REST mutators, following the spec taxonomy:
`notFound` is the 404 raised by `get_object`, `invalidState` the 400 of
`start_session`/`end_session`, `conflict` the 400 the deck-occupancy
check raises (in the source a `serializers.ValidationError`), and
`validation` every other serializer rejection. -/
inductive ApiError where
  | notFound
  | invalidState (msg : String)
  | conflict (msg : String)
  | validation (msg : String)
  deriving Repr, DecidableEq

/-- `DJSessionViewSet.start_session` (views.py 70-90): 400 if the
session is already live, otherwise set `is_live=True`, reset
`started_at` to now and save. -/
def start_session (st : Store) (sid : Nat) (now : Nat) : Except ApiError Store :=
  match findSession st sid with
  | none => .error .notFound
  | some s =>
      if s.is_live then
        .error (.invalidState "Session is already live")
      else
        .ok (saveSession st { s with is_live := true, started_at := now })

/-- `DJSessionViewSet.end_session` (views.py 92-118): 400 if the session
is not live, otherwise set `is_live=False`, `ended_at=now`, save, and
bulk-update every track instance of the session with `ended_at` null to
`ended_at=now, is_playing=False`.  The two `timezone.now()` calls of the
source are modelled as the same instant.  `endTracks` is the bulk
queryset update
`filter(session=session, ended_at__isnull=True).update(ended_at=now,
is_playing=False)`. -/
def endTracks (l : List DJTrackInstance) (sid now : Nat) : List DJTrackInstance :=
  l.map (fun t =>
    if t.session = sid ∧ t.ended_at = none then
      { t with ended_at := some now, is_playing := false }
    else t)

def end_session (st : Store) (sid : Nat) (now : Nat) : Except ApiError Store :=
  match findSession st sid with
  | none => .error .notFound
  | some s =>
      if !s.is_live then
        .error (.invalidState "Session is not currently live")
      else
        let st1 := saveSession st { s with is_live := false, ended_at := some now }
        .ok { st1 with track_instances := endTracks st1.track_instances sid now }

/-- The body of a `POST /tracks` request: the writable fields of
`DJTrackInstanceCreateSerializer`. -/
structure TrackCreateInput where
  session : Nat
  track : Option Nat
  track_title : String
  track_artist : String
  track_duration : Option ℚ
  deck : String
  deriving Repr, DecidableEq

/-- The row filter `session=..., deck=..., ended_at__isnull=True` used
by the deck-occupancy queryset. -/
def isActiveOn (sid : Nat) (deck : String) (t : DJTrackInstance) : Bool :=
  t.session == sid && t.deck == deck && t.ended_at == none

/-- The deck-occupancy queryset of
`DJTrackInstanceCreateSerializer.validate` (serializers.py 105-115):
does an active (`ended_at__isnull=True`) instance exist on this
(session, deck)? -/
def deckOccupied (st : Store) (sid : Nat) (deck : String) : Bool :=
  st.track_instances.any (isActiveOn sid deck)

/-- The row created from a `TrackCreateInput`, with the model-field
defaults of `DJTrackInstance` (models.py 88-145). -/
def newTrackInstance (inp : TrackCreateInput) (newId now : Nat) : DJTrackInstance :=
  { id := newId
    session := inp.session
    track := inp.track
    track_title := inp.track_title
    track_artist := inp.track_artist
    track_duration := inp.track_duration
    deck := inp.deck
    started_at := now
    ended_at := none
    current_position := 0
    playback_speed := 1
    is_playing := false
    is_looping := false
    volume := 4/5
    eq_low := 0
    eq_mid := 0
    eq_high := 0
    detected_bpm := none
    manual_bpm := none
    is_synced := false
    cue_points := []
    hot_cues := [] }

/-- `POST /tracks`: field validation of
`DJTrackInstanceCreateSerializer` (deck must be a declared choice, the
session foreign key must resolve), then the deck-occupancy check of
`validate`, then row creation. -/
def track_perform_create (st : Store) (inp : TrackCreateInput) (newId now : Nat) :
    Except ApiError Store :=
  if inp.deck ≠ "A" ∧ inp.deck ≠ "B" then
    .error (.validation "deck: invalid choice")
  else if (findSession st inp.session).isNone then
    .error (.validation "session: invalid pk")
  else if deckOccupied st inp.session inp.deck then
    .error (.conflict
      ("Deck " ++ inp.deck ++ " already has an active track in this session"))
  else
    .ok { st with track_instances :=
      st.track_instances ++ [newTrackInstance inp newId now] }

/-- Python `d[k] = v` on a dict rendered as an association list with
duplicate-free keys: overwrite in place when the key is present, append
otherwise. -/
def dictInsert (d : List (String × ℚ)) (k : String) (v : ℚ) : List (String × ℚ) :=
  if d.any (fun p => p.1 == k) then
    d.map (fun p => if p.1 = k then (k, v) else p)
  else
    d ++ [(k, v)]

/-- `DJTrackInstanceViewSet.add_cue` (views.py 260-277): the cue name
defaults to `"Cue {len(cue_points)+1}"`, the position defaults to the
instance's `current_position`; the pair is written into the `cue_points`
mapping and the instance saved. -/
def add_cue (st : Store) (tid : Nat) (name : Option String) (position : Option ℚ) :
    Except ApiError Store :=
  match findTrack st tid with
  | none => .error .notFound
  | some t =>
      let cue_name := name.getD ("Cue " ++ toString (t.cue_points.length + 1))
      let pos := position.getD t.current_position
      .ok (saveTrack st { t with cue_points := dictInsert t.cue_points cue_name pos })

/-- Model-field range validators of `AudioLevelSnapshot` (every level in
[0,1]), run by the serializer before `perform_create`. -/
def snapshotValid (a : AudioLevelSnapshot) : Bool :=
  decide (0 ≤ a.master_left ∧ a.master_left ≤ 1) &&
  decide (0 ≤ a.master_right ∧ a.master_right ≤ 1) &&
  decide (0 ≤ a.master_peak_left ∧ a.master_peak_left ≤ 1) &&
  decide (0 ≤ a.master_peak_right ∧ a.master_peak_right ≤ 1) &&
  decide (0 ≤ a.channel_a_left ∧ a.channel_a_left ≤ 1) &&
  decide (0 ≤ a.channel_a_right ∧ a.channel_a_right ≤ 1) &&
  decide (0 ≤ a.channel_b_left ∧ a.channel_b_left ≤ 1) &&
  decide (0 ≤ a.channel_b_right ∧ a.channel_b_right ≤ 1) &&
  decide (0 ≤ a.channel_a_peak ∧ a.channel_a_peak ≤ 1) &&
  decide (0 ≤ a.channel_b_peak ∧ a.channel_b_peak ≤ 1)

/-- `AudioLevelSnapshotViewSet.perform_create` (views.py 327-343):
serializer validation, then persist the snapshot, then refresh the
session's cached level fields (`save(update_fields=[the four level
columns])`): master levels copied, each channel level the `max` of that
channel's left and right. -/
def audio_perform_create (st : Store) (a : AudioLevelSnapshot) :
    Except ApiError Store :=
  if !snapshotValid a then
    .error (.validation "level out of range")
  else
    match findSession st a.session with
    | none => .error (.validation "session: invalid pk")
    | some s =>
        let st1 := { st with audio_snapshots := st.audio_snapshots ++ [a] }
        .ok (saveSession st1 { s with
          master_level_left := a.master_left
          master_level_right := a.master_right
          channel_a_level := max a.channel_a_left a.channel_a_right
          channel_b_level := max a.channel_b_left a.channel_b_right })

/-- Model-field range validator of `LiveStreamMetrics`
(`buffer_health` in [0,1]; the integer fields are non-negative by
type). -/
def metricsValid (m : LiveStreamMetrics) : Bool :=
  decide (0 ≤ m.buffer_health ∧ m.buffer_health ≤ 1)

/-- `LiveStreamMetricsViewSet.perform_create` (views.py 416-428):
serializer validation, then persist the metrics row, then refresh the
session's listener counters (`save(update_fields=['current_listeners',
'peak_listeners'])`): current copied, peak raised when the new current
exceeds it. -/
def metrics_perform_create (st : Store) (m : LiveStreamMetrics) :
    Except ApiError Store :=
  if !metricsValid m then
    .error (.validation "buffer_health out of range")
  else
    match findSession st m.session with
    | none => .error (.validation "session: invalid pk")
    | some s =>
        let st1 := { st with stream_metrics := st.stream_metrics ++ [m] }
        .ok (saveSession st1 { s with
          current_listeners := m.current_listeners
          peak_listeners :=
            if m.current_listeners > s.peak_listeners then m.current_listeners
            else s.peak_listeners })

/-- The body of a `PATCH /sessions/{id}` request: the writable fields of
`DJSessionUpdateSerializer` (serializers.py 60-71); `none` means the
field is absent from the request. -/
structure SessionPatch where
  is_live : Option Bool := none
  is_recording : Option Bool := none
  current_listeners : Option Nat := none
  master_level_left : Option ℚ := none
  master_level_right : Option ℚ := none
  channel_a_level : Option ℚ := none
  channel_b_level : Option ℚ := none
  crossfader_position : Option ℚ := none
  master_volume : Option ℚ := none
  deriving Repr, DecidableEq

/-- Model-field range validators run on the patch fields that carry
them. -/
def patchValid (p : SessionPatch) : Bool :=
  (p.master_level_left.all fun q => decide (0 ≤ q ∧ q ≤ 1)) &&
  (p.master_level_right.all fun q => decide (0 ≤ q ∧ q ≤ 1)) &&
  (p.channel_a_level.all fun q => decide (0 ≤ q ∧ q ≤ 1)) &&
  (p.channel_b_level.all fun q => decide (0 ≤ q ∧ q ≤ 1)) &&
  (p.crossfader_position.all fun q => decide (-1 ≤ q ∧ q ≤ 1)) &&
  (p.master_volume.all fun q => decide (0 ≤ q ∧ q ≤ 1))

/-- Apply a validated partial-update body to a session row. -/
def applyPatch (s : DJSession) (p : SessionPatch) : DJSession :=
  { s with
    is_live := p.is_live.getD s.is_live
    is_recording := p.is_recording.getD s.is_recording
    current_listeners := p.current_listeners.getD s.current_listeners
    master_level_left := p.master_level_left.getD s.master_level_left
    master_level_right := p.master_level_right.getD s.master_level_right
    channel_a_level := p.channel_a_level.getD s.channel_a_level
    channel_b_level := p.channel_b_level.getD s.channel_b_level
    crossfader_position := p.crossfader_position.getD s.crossfader_position
    master_volume := p.master_volume.getD s.master_volume }

/-- `PATCH /sessions/{id}` (`DJSessionViewSet.perform_update` with
`DJSessionUpdateSerializer`): look up the session, validate the patch,
apply it and save.  `peak_listeners` is not a writable field, so a patch
never touches it. -/
def session_perform_update (st : Store) (sid : Nat) (p : SessionPatch) :
    Except ApiError Store :=
  match findSession st sid with
  | none => .error .notFound
  | some s =>
      if !patchValid p then
        .error (.validation "field out of range")
      else
        .ok (saveSession st (applyPatch s p))

/-! ## WebSocket consumer (`realtime_dj/consumers.py`) -/

/-- The group name `DJSessionConsumer` joins:
`f'dj_session_{self.session_id}'`. -/
def sessionGroup (sid : Nat) : String :=
  "dj_session_" ++ toString sid

/-- Events a consumer publishes to its group with
`channel_layer.group_send`; the constructor names are the `type` routing
keys of the source. -/
inductive GroupEvent where
  | audio_levels_update (levels : Json)
  | mixer_state_update (mixer : Json)
  | track_control_update (track : Json)
  | listener_count_update (listeners : Json)
  deriving Repr, DecidableEq

/-- Outbound effects of a consumer handler: a frame sent to the
connected client itself (`self.send`) or an event published to a group
(`channel_layer.group_send`). -/
inductive OutMsg where
  | toSender (frame : Json)
  | toGroup (group : String) (event : GroupEvent)
  deriving Repr, DecidableEq

/-- The single error frame `receive` sends back on a
`json.JSONDecodeError` (consumers.py 63-67). -/
def invalidJsonFrame : Json :=
  .obj [("type", .str "error"), ("message", .str "Invalid JSON format")]

/-- The seven-field snapshot `DJSessionConsumer.get_session_data` builds
from the session row (consumers.py 192-207). -/
structure SessionSnapshot where
  id : Nat
  session_name : String
  is_live : Bool
  current_listeners : Nat
  started_at : Nat
  master_volume : ℚ
  crossfader_position : ℚ
  deriving Repr, DecidableEq

/-- The projection of a session row into its connect-time snapshot. -/
def sessionSnapshot (s : DJSession) : SessionSnapshot :=
  { id := s.id
    session_name := s.session_name
    is_live := s.is_live
    current_listeners := s.current_listeners
    started_at := s.started_at
    master_volume := s.master_volume
    crossfader_position := s.crossfader_position }

/-- `DJSessionConsumer.get_session_data`: the snapshot of the session
row, or `none` when `DJSession.DoesNotExist` is caught. -/
def get_session_data (st : Store) (sid : Nat) : Option SessionSnapshot :=
  (findSession st sid).map sessionSnapshot

/-- Observable outcome of `DJSessionConsumer.connect` (consumers.py
21-39): the group joined via `group_add`, whether the handshake was
accepted, and the `session_connected` snapshot sent (if any). -/
structure ConnectResult where
  joined_group : String
  accepted : Bool
  snapshot_sent : Option SessionSnapshot
  deriving Repr, DecidableEq

/-- `DJSessionConsumer.connect`: join `dj_session_{id}`, accept, then
send a `session_connected` frame only when `get_session_data` found the
session. -/
def connect (st : Store) (sid : Nat) : ConnectResult :=
  { joined_group := sessionGroup sid
    accepted := true
    snapshot_sent := get_session_data st sid }

/-- `DJSessionConsumer.update_session_listeners` (consumers.py
209-219): look the session up (a missing session is caught and
swallowed), copy the count into `current_listeners` and raise
`peak_listeners` when exceeded, saving only those two columns.  `none`
models an exception escaping the handler: the count JSON is not a
number usable as a `PositiveIntegerField` value (a non-numeric count
raises `TypeError` at the comparison, a negative one is rejected by the
database on save); JSON numbers are integers in this embedding, and
Python booleans compare and store as 0/1. -/
def update_session_listeners (st : Store) (sid : Nat) (count : Json) : Option Store :=
  match findSession st sid with
  | none => some st
  | some s =>
      match count with
      | .num z =>
          if z < 0 then none
          else some (saveSession st { s with
            current_listeners := z.toNat
            peak_listeners :=
              if z > (s.peak_listeners : Int) then z.toNat else s.peak_listeners })
      | .bool b =>
          let n : Nat := if b then 1 else 0
          some (saveSession st { s with
            current_listeners := n
            peak_listeners := if n > s.peak_listeners then n else s.peak_listeners })
      | _ => none

/-- Outcome of one `receive` call: the effects emitted and the resulting
store, tagged by whether the handler returned normally or an uncaught
exception escaped (crashing the connection task). -/
inductive RecvResult where
  | ok (out : List OutMsg) (st : Store)
  | raised (out : List OutMsg) (st : Store)
  deriving Repr, DecidableEq

/-- `DJSessionConsumer.receive` (consumers.py 48-67).  The inbound text
frame arrives already run through `json.loads`: `none` models a
`json.JSONDecodeError` (the only exception the source catches), `some j`
a successfully decoded document.  `text_data_json['type']` raises when
the document is not a dict or lacks the key; a `type` that matches none
of the four handled strings falls through the `if`/`elif` chain
silently. -/
def receive (st : Store) (sid : Nat) (input : Option Json) : RecvResult :=
  match input with
  | none => .ok [.toSender invalidJsonFrame] st
  | some j =>
      match j.index "type" with
      | none => .raised [] st
      | some t =>
          if t = .str "audio_levels" then
            .ok [.toGroup (sessionGroup sid)
              (.audio_levels_update (j.getD "levels" (.obj [])))] st
          else if t = .str "mixer_update" then
            .ok [.toGroup (sessionGroup sid)
              (.mixer_state_update (j.getD "mixer" (.obj [])))] st
          else if t = .str "track_control" then
            .ok [.toGroup (sessionGroup sid)
              (.track_control_update (j.getD "track" (.obj [])))] st
          else if t = .str "listener_update" then
            let count := j.getD "listeners" (.num 0)
            match update_session_listeners st sid count with
            | none => .raised [] st
            | some st1 =>
                .ok [.toGroup (sessionGroup sid) (.listener_count_update count)] st1
          else
            .ok [] st

/-- Frames a `receive` outcome sent back to the connected client
itself. -/
def RecvResult.senderFrames : RecvResult → List Json
  | .ok out _ => out.filterMap (fun m => match m with
      | .toSender f => some f
      | .toGroup _ _ => none)
  | .raised out _ => out.filterMap (fun m => match m with
      | .toSender f => some f
      | .toGroup _ _ => none)

/-- The four message types `receive` dispatches on. -/
def knownType : Json → Bool
  | .str "audio_levels" => true
  | .str "mixer_update" => true
  | .str "track_control" => true
  | .str "listener_update" => true
  | _ => false

/-- Count of active track instances on one (session, deck) pair. -/
def activeOnDeck (st : Store) (sid : Nat) (deck : String) : Nat :=
  (st.track_instances.filter (isActiveOn sid deck)).length

/-- The deck-occupancy invariant: at most one active track instance per
(session, deck) pair. -/
def DeckInvariant (st : Store) : Prop :=
  ∀ sid deck, activeOnDeck st sid deck ≤ 1

/-! ## Concrete fixtures used by witnesses and counterexamples -/

/-- A live session (id 1) with a stale-peak-prone counter pair. -/
def exSessionLive : DJSession :=
  { id := 1
    dj := 11
    station := none
    session_name := "Friday Night"
    description := ""
    started_at := 100
    ended_at := none
    is_live := true
    is_recording := false
    sample_rate := 48000
    bit_depth := 16
    channels := 2
    current_listeners := 3
    peak_listeners := 5
    master_level_left := 0
    master_level_right := 0
    channel_a_level := 0
    channel_b_level := 0
    crossfader_position := 0
    master_volume := 4/5 }

/-- A not-live session (id 2). -/
def exSessionIdle : DJSession :=
  { exSessionLive with id := 2, is_live := false, session_name := "Warmup" }

/-- An active track instance on deck A of session 1. -/
def exTrack : DJTrackInstance :=
  { id := 3
    session := 1
    track := none
    track_title := "Tune"
    track_artist := "DJ"
    track_duration := some 180
    deck := "A"
    started_at := 110
    ended_at := none
    current_position := 30
    playback_speed := 1
    is_playing := true
    is_looping := false
    volume := 4/5
    eq_low := 0
    eq_mid := 0
    eq_high := 0
    detected_bpm := some 128
    manual_bpm := none
    is_synced := false
    cue_points := [("Intro", 12)]
    hot_cues := [] }

/-- A store holding both sessions and the active deck-A track. -/
def exStore : Store :=
  { sessions := [exSessionLive, exSessionIdle]
    track_instances := [exTrack]
    audio_snapshots := []
    mixer_states := []
    stream_metrics := [] }

/-- A `POST /tracks` body aimed at the already-occupied deck A of
session 1. -/
def exTrackInput : TrackCreateInput :=
  { session := 1
    track := none
    track_title := "Second Tune"
    track_artist := "DJ"
    track_duration := none
    deck := "A" }

/-- An audio snapshot with `channel_a_left = 0.3`,
`channel_a_right = 0.7` (the spec scenario for C4). -/
def exSnapshot : AudioLevelSnapshot :=
  { id := 4
    session := 1
    timestamp := 120
    master_left := 1/2
    master_right := 3/5
    master_peak_left := 3/4
    master_peak_right := 3/4
    channel_a_left := 3/10
    channel_a_right := 7/10
    channel_b_left := 1/5
    channel_b_right := 1/10
    channel_a_peak := 7/10
    channel_b_peak := 1/5
    frequency_data := none }

/-- A metrics record reporting 12 current listeners. -/
def exMetrics : LiveStreamMetrics :=
  { id := 5
    session := 1
    timestamp := 130
    current_listeners := 12
    unique_listeners := 9
    bitrate := 192000
    dropped_frames := 0
    buffer_health := 1
    bandwidth_usage := 24000
    latency := none
    listener_locations := none }

/-- A session patch pushing `current_listeners` above the stored peak of
session 1 (peak stays 5 because the update serializer cannot write
it). -/
def exStalePatch : SessionPatch :=
  { current_listeners := some 10 }

/-- A decoded inbound frame whose `type` is none of the four handled
strings. -/
def unknownTypeFrame : Json :=
  .obj [("type", .str "chat_message")]

/-- A decoded `listener_update` frame reporting 7 listeners. -/
def listenerFrame : Json :=
  .obj [("type", .str "listener_update"), ("listeners", .num 7)]

/-! ## Helper lemmas about the store primitives -/

/-- Mapping a row transformer that never changes the value of the search
predicate commutes with `find?`. -/
theorem find?_map_id_pres {α : Type} (f : α → α) (p : α → Bool) (l : List α)
    (hp : ∀ a, p (f a) = p a) :
    (l.map f).find? p = (l.find? p).map f := by
  induction l with
  | nil => rfl
  | cons a l ih =>
      rw [List.map_cons, List.find?_cons, List.find?_cons, hp]
      cases h : p a <;> simp [ih]

/-- `find?`ing after `saveSession` sees the written row exactly when the
old lookup hit a row with the written id. -/
theorem findSession_saveSession (st : Store) (s : DJSession) (sid : Nat) :
    findSession (saveSession st s) sid =
      (findSession st sid).map (fun r => if r.id = s.id then s else r) := by
  unfold findSession saveSession
  exact find?_map_id_pres _ _ _ (fun a => by by_cases h : a.id = s.id <;> simp [h])

/-- A session found under key `sid` has id `sid`. -/
theorem findSession_id {st : Store} {sid : Nat} {s : DJSession}
    (h : findSession st sid = some s) : s.id = sid := by
  have := List.find?_some h
  simpa using this

/-- `saveTrack` analogue of `findSession_saveSession`. -/
theorem findTrack_saveTrack (st : Store) (t : DJTrackInstance) (tid : Nat) :
    findTrack (saveTrack st t) tid =
      (findTrack st tid).map (fun r => if r.id = t.id then t else r) := by
  unfold findTrack saveTrack
  exact find?_map_id_pres _ _ _ (fun a => by by_cases h : a.id = t.id <;> simp [h])

/-- A track found under key `tid` has id `tid`. -/
theorem findTrack_id {st : Store} {tid : Nat} {t : DJTrackInstance}
    (h : findTrack st tid = some t) : t.id = tid := by
  have := List.find?_some h
  simpa using this

/-- Overwriting an existing key in an association list makes `lookup`
return the new value. -/
theorem lookup_map_overwrite (d : List (String × ℚ)) (k : String) (v : ℚ)
    (h : d.any (fun p => p.1 == k) = true) :
    (d.map (fun p => if p.1 = k then (k, v) else p)).lookup k = some v := by
  induction d with
  | nil => simp at h
  | cons a d ih =>
      obtain ⟨k1, v1⟩ := a
      by_cases hk : k1 = k
      · rw [List.map_cons]
        simp only [if_pos hk]
        simp [List.lookup]
      · have h2 : d.any (fun p => p.1 == k) = true := by
          simp only [List.any_cons, Bool.or_eq_true, beq_iff_eq] at h
          rcases h with h | h
          · exact absurd h hk
          · exact h
        have hne : (k == k1) = false := by
          simp only [beq_eq_false_iff_ne]
          exact fun he => hk he.symm
        rw [List.map_cons]
        simp only [if_neg hk]
        simp [List.lookup, hne, ih h2]

/-- Appending a fresh key to an association list makes `lookup` return
its value. -/
theorem lookup_append_new (d : List (String × ℚ)) (k : String) (v : ℚ)
    (h : d.any (fun p => p.1 == k) = false) :
    (d ++ [(k, v)]).lookup k = some v := by
  induction d with
  | nil => simp [List.lookup]
  | cons a d ih =>
      obtain ⟨k1, v1⟩ := a
      simp only [List.any_cons, Bool.or_eq_false_iff, beq_eq_false_iff_ne] at h
      have hne : (k == k1) = false := by
        simp only [beq_eq_false_iff_ne]
        exact fun he => h.1 he.symm
      rw [List.cons_append]
      simp [List.lookup, hne]
      exact ih (by simpa [beq_eq_false_iff_ne] using h.2)

/-- `dictInsert` always makes `lookup` of the written key return the
written value. -/
theorem dictInsert_lookup (d : List (String × ℚ)) (k : String) (v : ℚ) :
    (dictInsert d k v).lookup k = some v := by
  unfold dictInsert
  cases h : d.any (fun p => p.1 == k) with
  | true => simpa [h] using lookup_map_overwrite d k v h
  | false => simpa [h] using lookup_append_new d k v h

/-- `dictInsert` on a key already present keeps the mapping's size. -/
theorem dictInsert_length_of_mem (d : List (String × ℚ)) (k : String) (v : ℚ)
    (h : d.any (fun p => p.1 == k) = true) :
    (dictInsert d k v).length = d.length := by
  simp [dictInsert, h]

/-- An unoccupied deck has zero active instances. -/
theorem activeOnDeck_of_not_occupied {st : Store} {sid : Nat} {deck : String}
    (h : deckOccupied st sid deck = false) :
    activeOnDeck st sid deck = 0 := by
  unfold deckOccupied at h
  rw [List.any_eq_false] at h
  unfold activeOnDeck
  rw [List.length_eq_zero, List.filter_eq_nil_iff]
  exact h

/-- The source's `if new > peak then new else peak` is `max peak new`. -/
theorem if_gt_eq_max (a b : Nat) : (if b > a then b else a) = max a b := by
  rw [Nat.max_def]
  split <;> split <;> omega

/-- Replacing the track table leaves session lookups unchanged. -/
theorem findSession_set_tracks (st : Store) (l : List DJTrackInstance) (sid : Nat) :
    findSession { st with track_instances := l } sid = findSession st sid := rfl

/-- Appending to the snapshot table leaves session lookups unchanged. -/
theorem findSession_set_audio (st : Store) (l : List AudioLevelSnapshot) (sid : Nat) :
    findSession { st with audio_snapshots := l } sid = findSession st sid := rfl

/-- Appending to the metrics table leaves session lookups unchanged. -/
theorem findSession_set_metrics (st : Store) (l : List LiveStreamMetrics) (sid : Nat) :
    findSession { st with stream_metrics := l } sid = findSession st sid := rfl

/-- The example snapshot passes the serializer's range validation
(rational arithmetic does not kernel-reduce, so this is settled by
`norm_num`). -/
theorem snapshotValid_exSnapshot : snapshotValid exSnapshot = true := by
  norm_num [snapshotValid, exSnapshot]

/-- The example metrics record passes the serializer's range
validation. -/
theorem metricsValid_exMetrics : metricsValid exMetrics = true := by
  norm_num [metricsValid, exMetrics]

/-- Closed form of a successful `audio_perform_create`. -/
theorem audio_perform_create_eq (st : Store) (a : AudioLevelSnapshot) (s : DJSession)
    (hfind : findSession st a.session = some s) (hv : snapshotValid a = true) :
    audio_perform_create st a = .ok (saveSession
      { st with audio_snapshots := st.audio_snapshots ++ [a] }
      { s with master_level_left := a.master_left,
               master_level_right := a.master_right,
               channel_a_level := max a.channel_a_left a.channel_a_right,
               channel_b_level := max a.channel_b_left a.channel_b_right }) := by
  simp [audio_perform_create, hv, hfind]

/-! ## Claim theorems -/

/-- Claim C6: for every session, start fails with InvalidState (400)
when the session is already live and produces no new store (every
session field unchanged); when the session is not live, start sets
`is_live=true`, resets `started_at` to now and leaves every other field
of the session unchanged (the record update touches only those two
fields). -/
theorem start_session_spec (st : Store) (sid now : Nat) (s : DJSession)
    (hfind : findSession st sid = some s) :
    (s.is_live = true →
        start_session st sid now =
          .error (.invalidState "Session is already live")) ∧
    (s.is_live = false →
        start_session st sid now =
          .ok (saveSession st { s with is_live := true, started_at := now }) ∧
        findSession (saveSession st { s with is_live := true, started_at := now }) sid =
          some { s with is_live := true, started_at := now }) := by
  constructor
  · intro hl
    simp [start_session, hfind, hl]
  · intro hl
    refine ⟨by simp [start_session, hfind, hl], ?_⟩
    rw [findSession_saveSession, hfind]
    simp

/-- Witness for C6: starting the already-live session 1 of the example
store is rejected with the InvalidState message. -/
theorem start_session_spec_witness :
    start_session exStore 1 200 = .error (.invalidState "Session is already live") :=
  (start_session_spec exStore 1 200 exSessionLive rfl).1 rfl

/-- Claim C2: ending a not-live session fails with InvalidState (400)
and produces no new store; ending a live session sets `is_live=false`
and `ended_at` to now (other session fields unchanged), every active
track instance of the session transitions to `ended_at` set and
`is_playing=false`, track instances of other sessions are untouched,
and afterwards no track instance of the session is active. -/
theorem end_session_spec (st : Store) (sid now : Nat) (s : DJSession)
    (hfind : findSession st sid = some s) :
    (s.is_live = false →
        end_session st sid now =
          .error (.invalidState "Session is not currently live")) ∧
    (s.is_live = true → ∃ st2,
        end_session st sid now = .ok st2 ∧
        findSession st2 sid = some { s with is_live := false, ended_at := some now } ∧
        (∀ t ∈ st.track_instances, t.session = sid → t.ended_at = none →
          { t with ended_at := some now, is_playing := false } ∈ st2.track_instances) ∧
        (∀ t ∈ st.track_instances, t.session ≠ sid → t ∈ st2.track_instances) ∧
        (∀ t ∈ st2.track_instances, t.session = sid → t.ended_at ≠ none)) := by
  constructor
  · intro hl
    simp [end_session, hfind, hl]
  · intro hl
    refine ⟨{ saveSession st { s with is_live := false, ended_at := some now } with
        track_instances := endTracks st.track_instances sid now },
      ?_, ?_, ?_, ?_, ?_⟩
    · simp [end_session, hfind, hl, saveSession]
    · rw [findSession_set_tracks, findSession_saveSession, hfind]
      simp
    · intro t ht h1 h2
      show { t with ended_at := some now, is_playing := false } ∈
        endTracks st.track_instances sid now
      unfold endTracks
      exact List.mem_map.mpr ⟨t, ht, by rw [if_pos ⟨h1, h2⟩]⟩
    · intro t ht hne
      show t ∈ endTracks st.track_instances sid now
      unfold endTracks
      refine List.mem_map.mpr ⟨t, ht, ?_⟩
      rw [if_neg]
      exact fun hc => hne hc.1
    · intro t ht h1
      have ht2 : t ∈ endTracks st.track_instances sid now := ht
      unfold endTracks at ht2
      obtain ⟨a, ha, rfl⟩ := List.mem_map.mp ht2
      by_cases hc : a.session = sid ∧ a.ended_at = none
      · rw [if_pos hc]
        simp
      · rw [if_neg hc]
        rw [if_neg hc] at h1
        exact fun he => hc ⟨h1, he⟩

/-- Witness for C2: ending the live session 1 of the example store
succeeds and the stored row comes back not live with `ended_at`
set. -/
theorem end_session_spec_witness :
    ∃ st2, end_session exStore 1 300 = .ok st2 ∧
      findSession st2 1 =
        some { exSessionLive with is_live := false, ended_at := some 300 } := by
  obtain ⟨st2, h1, h2, -, -, -⟩ := (end_session_spec exStore 1 300 exSessionLive rfl).2 rfl
  exact ⟨st2, h1, h2⟩

/-- Claim C3: after `recordMetrics` the session's `current_listeners`
equals the record's and its `peak_listeners` equals
`max(previous peak, record's current)`; and `peak >= current` is not an
invariant at other times — a partial session update (whose serializer
exposes `current_listeners` but not `peak_listeners`) reaches a store
where current exceeds peak. -/
theorem record_metrics_spec (st : Store) (m : LiveStreamMetrics) (s : DJSession)
    (hfind : findSession st m.session = some s) (hv : metricsValid m = true) :
    (∃ st2, metrics_perform_create st m = .ok st2 ∧
       ∃ s2, findSession st2 m.session = some s2 ∧
         s2.current_listeners = m.current_listeners ∧
         s2.peak_listeners = max s.peak_listeners m.current_listeners) ∧
    (∃ stW sW, session_perform_update exStore 1 exStalePatch = .ok stW ∧
       findSession stW 1 = some sW ∧ sW.peak_listeners < sW.current_listeners) := by
  constructor
  · refine ⟨saveSession { st with stream_metrics := st.stream_metrics ++ [m] }
        { s with current_listeners := m.current_listeners,
                 peak_listeners :=
                   if m.current_listeners > s.peak_listeners then m.current_listeners
                   else s.peak_listeners }, ?_, ?_⟩
    · simp [metrics_perform_create, hv, hfind]
    · refine ⟨{ s with current_listeners := m.current_listeners,
                       peak_listeners :=
                         if m.current_listeners > s.peak_listeners then m.current_listeners
                         else s.peak_listeners }, ?_, rfl, if_gt_eq_max _ _⟩
      rw [findSession_saveSession, findSession_set_metrics, hfind]
      simp
  · refine ⟨_, _, rfl, rfl, ?_⟩
    decide

/-- Witness for C3: recording 12 current listeners against session 1
(previous peak 5) stores current 12 and peak `max 5 12 = 12`. -/
theorem record_metrics_spec_witness :
    ∃ st2, metrics_perform_create exStore exMetrics = .ok st2 ∧
      ∃ s2, findSession st2 1 = some s2 ∧
        s2.current_listeners = 12 ∧ s2.peak_listeners = 12 := by
  obtain ⟨⟨st2, h1, s2, h2, h3, h4⟩, -⟩ :=
    record_metrics_spec exStore exMetrics exSessionLive rfl metricsValid_exMetrics
  refine ⟨st2, h1, s2, h2, h3, ?_⟩
  rw [h4]
  decide

/-- Claim C4: after `recordAudioLevels` the session's cached
`master_level_left`/`master_level_right` equal the snapshot's master
left/right, and each cached channel level is the max of that channel's
left and right. -/
theorem record_audio_levels_spec (st : Store) (a : AudioLevelSnapshot) (s : DJSession)
    (hfind : findSession st a.session = some s) (hv : snapshotValid a = true) :
    ∃ st2, audio_perform_create st a = .ok st2 ∧
      ∃ s2, findSession st2 a.session = some s2 ∧
        s2.master_level_left = a.master_left ∧
        s2.master_level_right = a.master_right ∧
        s2.channel_a_level = max a.channel_a_left a.channel_a_right ∧
        s2.channel_b_level = max a.channel_b_left a.channel_b_right := by
  refine ⟨saveSession { st with audio_snapshots := st.audio_snapshots ++ [a] }
      { s with master_level_left := a.master_left,
               master_level_right := a.master_right,
               channel_a_level := max a.channel_a_left a.channel_a_right,
               channel_b_level := max a.channel_b_left a.channel_b_right }, ?_, ?_⟩
  · simp [audio_perform_create, hv, hfind]
  · refine ⟨{ s with master_level_left := a.master_left,
                     master_level_right := a.master_right,
                     channel_a_level := max a.channel_a_left a.channel_a_right,
                     channel_b_level := max a.channel_b_left a.channel_b_right },
      ?_, rfl, rfl, rfl, rfl⟩
    rw [findSession_saveSession, findSession_set_audio, hfind]
    simp

/-- Witness for C4: the spec scenario — a snapshot with
`channel_a_left=0.3, channel_a_right=0.7` leaves the session's cached
`channel_a_level` at `0.7`. -/
theorem record_audio_levels_spec_witness :
    ∃ st2, audio_perform_create exStore exSnapshot = .ok st2 ∧
      ∃ s2, findSession st2 1 = some s2 ∧ s2.channel_a_level = 7/10 := by
  obtain ⟨st2, h1, s2, h2, -, -, h5, -⟩ :=
    record_audio_levels_spec exStore exSnapshot exSessionLive rfl snapshotValid_exSnapshot
  refine ⟨st2, h1, s2, h2, ?_⟩
  rw [h5]
  show max (3/10 : ℚ) (7/10) = 7/10
  exact max_eq_right (by norm_num)

/-- Claim C9 (frame property): submitting an audio snapshot appends the
snapshot row and rewrites only the four cached level fields of the
snapshot's session; every other session field, every other session row,
and the track/mixer/metrics tables are untouched. -/
theorem audio_levels_frame_effect (st : Store) (a : AudioLevelSnapshot) (st2 : Store)
    (h : audio_perform_create st a = .ok st2) :
    st2.track_instances = st.track_instances ∧
    st2.mixer_states = st.mixer_states ∧
    st2.stream_metrics = st.stream_metrics ∧
    st2.audio_snapshots = st.audio_snapshots ++ [a] ∧
    (∀ s ∈ st.sessions, s.id ≠ a.session → s ∈ st2.sessions) ∧
    (∀ s s2, findSession st a.session = some s →
        findSession st2 a.session = some s2 →
        s2 = { s with
          master_level_left := a.master_left,
          master_level_right := a.master_right,
          channel_a_level := max a.channel_a_left a.channel_a_right,
          channel_b_level := max a.channel_b_left a.channel_b_right }) := by
  unfold audio_perform_create at h
  split at h
  · exact absurd h (by simp)
  · split at h
    · exact absurd h (by simp)
    · rename_i s0 heq
      injection h with h
      subst h
      refine ⟨rfl, rfl, rfl, rfl, ?_, ?_⟩
      · intro s hs hne
        have hid : s0.id = a.session := findSession_id heq
        show s ∈ (saveSession { st with audio_snapshots := st.audio_snapshots ++ [a] }
          { s0 with master_level_left := a.master_left,
                    master_level_right := a.master_right,
                    channel_a_level := max a.channel_a_left a.channel_a_right,
                    channel_b_level := max a.channel_b_left a.channel_b_right }).sessions
        unfold saveSession
        refine List.mem_map.mpr ⟨s, hs, ?_⟩
        rw [if_neg]
        show ¬s.id = s0.id
        rw [hid]
        exact hne
      · intro s s2 h1 h2
        rw [heq] at h1
        injection h1 with h1
        subst h1
        rw [findSession_saveSession, findSession_set_audio, heq] at h2
        simp at h2
        exact h2.symm

/-- Witness for C9: submitting the example snapshot leaves the track
table of the example store unchanged. -/
theorem audio_levels_frame_effect_witness :
    ∃ st2, audio_perform_create exStore exSnapshot = .ok st2 ∧
      st2.track_instances = exStore.track_instances := by
  have h := audio_perform_create_eq exStore exSnapshot exSessionLive rfl
    snapshotValid_exSnapshot
  exact ⟨_, h, (audio_levels_frame_effect exStore exSnapshot _ h).1⟩

/-- Claim C1: creating a track instance for a (session, deck) pair that
already has an active instance is rejected with the Conflict message
and creates no row (the result is an error, never a new store); and the
deck-occupancy invariant (at most one active instance per (session,
deck)) is preserved by every successful creation. -/
theorem deck_occupancy_spec (st : Store) (inp : TrackCreateInput) (newId now : Nat) :
    ((inp.deck = "A" ∨ inp.deck = "B") →
      (findSession st inp.session).isSome = true →
      deckOccupied st inp.session inp.deck = true →
      track_perform_create st inp newId now =
        .error (.conflict
          ("Deck " ++ inp.deck ++ " already has an active track in this session"))) ∧
    (∀ st2, track_perform_create st inp newId now = .ok st2 →
      DeckInvariant st → DeckInvariant st2) := by
  constructor
  · intro hd hs hocc
    have hn : ¬(inp.deck ≠ "A" ∧ inp.deck ≠ "B") := by
      rcases hd with h | h <;> simp [h]
    have hns : findSession st inp.session ≠ none := by
      intro he
      rw [he] at hs
      simp at hs
    rw [track_perform_create, if_neg hn, if_neg (by simpa using hns), if_pos hocc]
  · intro st2 h hinv
    rw [track_perform_create] at h
    split at h
    · exact absurd h (by simp)
    · split at h
      · exact absurd h (by simp)
      · split at h
        · exact absurd h (by simp)
        · rename_i hnocc
          injection h with h
          subst h
          intro sid deck
          have hocc0 : deckOccupied st inp.session inp.deck = false := by
            simpa using hnocc
          show (List.filter (isActiveOn sid deck)
            (st.track_instances ++ [newTrackInstance inp newId now])).length ≤ 1
          rw [List.filter_append, List.length_append]
          cases hp : isActiveOn sid deck (newTrackInstance inp newId now) with
          | false =>
              have h1 := hinv sid deck
              unfold activeOnDeck at h1
              simp [List.filter, hp]
              exact h1
          | true =>
              have hsd : sid = inp.session ∧ deck = inp.deck := by
                unfold isActiveOn newTrackInstance at hp
                simp at hp
                exact ⟨hp.1.symm, hp.2.symm⟩
              obtain ⟨rfl, rfl⟩ := hsd
              have h0 : activeOnDeck st inp.session inp.deck = 0 :=
                activeOnDeck_of_not_occupied hocc0
              unfold activeOnDeck at h0
              simp [List.filter, hp, h0]

/-- Witness for C1: loading a second track onto the occupied deck A of
session 1 in the example store is rejected with the Conflict
message. -/
theorem deck_occupancy_spec_witness :
    track_perform_create exStore exTrackInput 9 140 =
      .error (.conflict "Deck A already has an active track in this session") :=
  (deck_occupancy_spec exStore exTrackInput 9 140).1 (Or.inl rfl) rfl rfl

/-- Claim C5: `add_cue` with the name omitted stores a cue named
`"Cue {n+1}"` where n is the prior number of entries in the cue-point
mapping; with the position omitted the stored position is the
instance's `current_position`; and adding a cue under a name already
present overwrites that entry's position, leaving the mapping's size
unchanged. -/
theorem add_cue_spec (st : Store) (tid : Nat) (t : DJTrackInstance)
    (hfind : findTrack st tid = some t) :
    (∀ pos, ∃ st2 t2, add_cue st tid none pos = .ok st2 ∧
        findTrack st2 tid = some t2 ∧
        t2.cue_points.lookup ("Cue " ++ toString (t.cue_points.length + 1)) =
          some (pos.getD t.current_position)) ∧
    (∀ name, ∃ st2 t2, add_cue st tid name none = .ok st2 ∧
        findTrack st2 tid = some t2 ∧
        t2.cue_points.lookup
          (name.getD ("Cue " ++ toString (t.cue_points.length + 1))) =
          some t.current_position) ∧
    (∀ name pos, t.cue_points.any (fun p => p.1 == name) = true →
        ∃ st2 t2, add_cue st tid (some name) pos = .ok st2 ∧
          findTrack st2 tid = some t2 ∧
          t2.cue_points.length = t.cue_points.length ∧
          t2.cue_points.lookup name = some (pos.getD t.current_position)) := by
  refine ⟨?_, ?_, ?_⟩
  · intro pos
    refine
      ⟨saveTrack st
          { t with
            cue_points := dictInsert t.cue_points
                ("Cue " ++ toString (t.cue_points.length + 1))
                (pos.getD t.current_position) },
        { t with
          cue_points := dictInsert t.cue_points
              ("Cue " ++ toString (t.cue_points.length + 1))
              (pos.getD t.current_position) },
        ?_, ?_, ?_⟩
    · simp [add_cue, hfind]
    · rw [findTrack_saveTrack, hfind]
      simp
    · exact dictInsert_lookup _ _ _
  · intro name
    refine
      ⟨saveTrack st
          { t with
            cue_points := dictInsert t.cue_points
                (name.getD ("Cue " ++ toString (t.cue_points.length + 1)))
                t.current_position },
        { t with
          cue_points := dictInsert t.cue_points
              (name.getD ("Cue " ++ toString (t.cue_points.length + 1)))
              t.current_position },
        ?_, ?_, ?_⟩
    · simp [add_cue, hfind]
    · rw [findTrack_saveTrack, hfind]
      simp
    · exact dictInsert_lookup _ _ _
  · intro name pos hmem
    refine
      ⟨saveTrack st
          { t with
            cue_points := dictInsert t.cue_points name
                (pos.getD t.current_position) },
        { t with
          cue_points := dictInsert t.cue_points name
              (pos.getD t.current_position) },
        ?_, ?_, ?_, ?_⟩
    · simp [add_cue, hfind]
    · rw [findTrack_saveTrack, hfind]
      simp
    · exact dictInsert_length_of_mem _ _ _ hmem
    · exact dictInsert_lookup _ _ _

/-- Witness for C5: on the example track (one cue named "Intro",
position 30), an `add_cue` with everything omitted stores cue "Cue 2"
at position 30, and re-adding "Intro" at 50 keeps the mapping at one
entry with the new position. -/
theorem add_cue_spec_witness :
    (∃ st2 t2, add_cue exStore 3 none none = .ok st2 ∧
        findTrack st2 3 = some t2 ∧
        t2.cue_points.lookup "Cue 2" = some 30) ∧
    (∃ st2 t2, add_cue exStore 3 (some "Intro") (some 50) = .ok st2 ∧
        findTrack st2 3 = some t2 ∧
        t2.cue_points.length = 1 ∧ t2.cue_points.lookup "Intro" = some 50) := by
  constructor
  · obtain ⟨st2, t2, h1, h2, h3⟩ := (add_cue_spec exStore 3 exTrack rfl).1 none
    exact ⟨st2, t2, h1, h2, h3⟩
  · obtain ⟨st2, t2, h1, h2, h3, h4⟩ :=
      (add_cue_spec exStore 3 exTrack rfl).2.2 "Intro" (some 50) rfl
    exact ⟨st2, t2, h1, h2, h3, h4⟩

/-- Claim C7 counterexample: the decoded frame
`{"type": "chat_message"}` is well-formed JSON but not one of the four
known message types, so by the claim exactly one error message should
go back to the sender; the consumer instead falls through its
`if`/`elif` chain silently — zero frames are sent (and nothing is
broadcast and the store is untouched). -/
theorem receive_unknown_type_counterexample :
    receive exStore 1 (some unknownTypeFrame) = .ok [] exStore ∧
    (receive exStore 1 (some unknownTypeFrame)).senderFrames = [] :=
  ⟨rfl, rfl⟩

/-- Claim C7 as amended: only a JSON-decode failure is caught and
answered with exactly one error frame (connection stays open, nothing
broadcast, store untouched); a well-formed frame whose `type` is not
one of the four known types is silently ignored (no error frame at
all); and a decoded document without a usable `type` key raises an
uncaught exception that crashes the connection task. -/
theorem receive_validation_spec (st : Store) (sid : Nat) :
    (receive st sid none = .ok [.toSender invalidJsonFrame] st) ∧
    (∀ j t, j.index "type" = some t → knownType t = false →
        receive st sid (some j) = .ok [] st) ∧
    (∀ j, j.index "type" = none → receive st sid (some j) = .raised [] st) := by
  refine ⟨rfl, ?_, ?_⟩
  · intro j t hidx hk
    simp only [receive, hidx]
    rw [if_neg (fun h => by subst h; simp [knownType] at hk),
        if_neg (fun h => by subst h; simp [knownType] at hk),
        if_neg (fun h => by subst h; simp [knownType] at hk),
        if_neg (fun h => by subst h; simp [knownType] at hk)]
  · intro j hidx
    simp only [receive, hidx]

/-- Witness for the amended C7: a decoded document with no `type` key
crashes the handler with no output. -/
theorem receive_validation_spec_witness :
    receive exStore 1 (some (Json.obj [("listeners", Json.num 4)])) =
      .raised [] exStore :=
  (receive_validation_spec exStore 1).2.2 _ rfl

/-- Claim C8: on open the connection joins the session's group and is
accepted; when the session exists its seven-field snapshot is sent,
when it does not exist no snapshot is sent but the connection is still
accepted and joined, not rejected. -/
theorem connect_spec (st : Store) (sid : Nat) :
    (connect st sid).joined_group = sessionGroup sid ∧
    (connect st sid).accepted = true ∧
    (∀ s, findSession st sid = some s →
        (connect st sid).snapshot_sent = some
          { id := s.id
            session_name := s.session_name
            is_live := s.is_live
            current_listeners := s.current_listeners
            started_at := s.started_at
            master_volume := s.master_volume
            crossfader_position := s.crossfader_position }) ∧
    (findSession st sid = none → (connect st sid).snapshot_sent = none) := by
  refine ⟨rfl, rfl, ?_, ?_⟩
  · intro s h
    simp [connect, get_session_data, h, sessionSnapshot]
  · intro h
    simp [connect, get_session_data, h]

/-- Witness for C8: connecting to the nonexistent session 42 sends no
snapshot but is still accepted, and a connection to the existing
session 1 gets its snapshot. -/
theorem connect_spec_witness :
    (connect exStore 42).snapshot_sent = none ∧
    (connect exStore 42).accepted = true ∧
    (connect exStore 1).snapshot_sent = some (sessionSnapshot exSessionLive) :=
  ⟨(connect_spec exStore 42).2.2.2 rfl, (connect_spec exStore 42).2.1,
    (connect_spec exStore 1).2.2.1 exSessionLive rfl⟩

/-- Claim C10: a `listener_update` frame on a connection whose session
id is not in the store leaves the store completely unchanged and sends
no error frame to the sender, yet the `listener_count` event is still
broadcast to the session group exactly as if the update had been
persisted. -/
theorem listener_update_missing_session (st : Store) (sid : Nat)
    (fields : List (String × Json))
    (hmiss : findSession st sid = none)
    (htype : (Json.obj fields).index "type" = some (.str "listener_update")) :
    receive st sid (some (.obj fields)) =
      .ok [.toGroup (sessionGroup sid)
        (.listener_count_update ((Json.obj fields).getD "listeners" (.num 0)))] st := by
  simp only [receive, htype]
  rw [if_neg (by simp), if_neg (by simp), if_neg (by simp)]
  simp [update_session_listeners, hmiss]

/-- Witness for C10: the example `listener_update` frame aimed at the
missing session 42 leaves the example store unchanged while the
listener count is still broadcast to `dj_session_42`. -/
theorem listener_update_missing_session_witness :
    receive exStore 42 (some listenerFrame) =
      .ok [.toGroup "dj_session_42" (.listener_count_update (.num 7))] exStore := by
  have h := listener_update_missing_session exStore 42
    [("type", .str "listener_update"), ("listeners", .num 7)] rfl rfl
  exact h

end RealtimeDJ
